import Mathlib

/-!
Shallow embedding of the campaign membership workflow of `server.py`
(Hunter x Nen RPG System API).

Documents in the MongoDB collections are modelled as Lean values; each
HTTP handler becomes a pure function from a database state (plus the
request data, the generated uuid(s) and a timestamp `now` standing for
the handler's clock reads, which the source takes several microseconds
apart within one handler) to the new database state together with the
HTTP result.  A raised `HTTPException` is an `Except.error` paired with
the unchanged state.
-/

/-- A JSON-like dynamic value: the universe of the schemaless documents
(Python dict payloads) the server stores, merges and copies. -/
inductive Value where
  | null : Value
  | bool : Bool → Value
  | int : Int → Value
  | str : String → Value
  | arr : List Value → Value
  | obj : List (String × Value) → Value
deriving Repr, BEq

/-- Decidable equality for JSON values; the nested induction is spelled
out by recursing on the re-wrapped list tails. -/
def Value.decEq : (a b : Value) → Decidable (a = b)
  | .null, .null => isTrue rfl
  | .bool x, .bool y =>
    if h : x = y then isTrue (by rw [h]) else isFalse (by simp [h])
  | .int x, .int y =>
    if h : x = y then isTrue (by rw [h]) else isFalse (by simp [h])
  | .str x, .str y =>
    if h : x = y then isTrue (by rw [h]) else isFalse (by simp [h])
  | .arr [], .arr [] => isTrue rfl
  | .arr [], .arr (_ :: _) => isFalse (by simp)
  | .arr (_ :: _), .arr [] => isFalse (by simp)
  | .arr (x :: xs), .arr (y :: ys) =>
    match Value.decEq x y, Value.decEq (.arr xs) (.arr ys) with
    | isTrue h1, isTrue h2 => isTrue (by simp_all)
    | isFalse h1, _ => isFalse (by simp_all)
    | _, isFalse h2 => isFalse (by simp_all)
  | .obj [], .obj [] => isTrue rfl
  | .obj [], .obj (_ :: _) => isFalse (by simp)
  | .obj (_ :: _), .obj [] => isFalse (by simp)
  | .obj ((k, v) :: xs), .obj ((k', v') :: ys) =>
    match String.decEq k k', Value.decEq v v', Value.decEq (.obj xs) (.obj ys) with
    | isTrue h1, isTrue h2, isTrue h3 => isTrue (by simp_all)
    | isFalse h1, _, _ => isFalse (by simp_all)
    | _, isFalse h2, _ => isFalse (by simp_all)
    | _, _, isFalse h3 => isFalse (by simp_all)
  | .null, .bool _ | .null, .int _ | .null, .str _ | .null, .arr _ | .null, .obj _
  | .bool _, .null | .bool _, .int _ | .bool _, .str _ | .bool _, .arr _ | .bool _, .obj _
  | .int _, .null | .int _, .bool _ | .int _, .str _ | .int _, .arr _ | .int _, .obj _
  | .str _, .null | .str _, .bool _ | .str _, .int _ | .str _, .arr _ | .str _, .obj _
  | .arr _, .null | .arr _, .bool _ | .arr _, .int _ | .arr _, .str _ | .arr _, .obj _
  | .obj _, .null | .obj _, .bool _ | .obj _, .int _ | .obj _, .str _ | .obj _, .arr _ =>
    isFalse (fun h => Value.noConfusion h)

instance : DecidableEq Value := Value.decEq

/-- A document / Python dict: an insertion-ordered key-value list. -/
abbrev Doc := List (String × Value)

/-- Dictionary lookup, `d.get(k)`: value of the first binding of `k`. -/
def Doc.get (d : Doc) (k : String) : Option Value :=
  (d.find? (fun kv => kv.1 == k)).map (fun kv => kv.2)

/-- Dictionary assignment `d[k] = v`: replace the binding in place if the
key is present, otherwise append it at the end (Python dict semantics). -/
def Doc.set : Doc → String → Value → Doc
  | [], k, v => [(k, v)]
  | (k', v') :: rest, k, v =>
    if k' == k then (k, v) :: rest else (k', v') :: Doc.set rest k v

/-- Lookup of a string-valued field (a non-string value never equals a
string in a MongoDB equality filter). -/
def Doc.getString (d : Doc) (k : String) : Option String :=
  match Doc.get d k with
  | some (Value.str s) => some s
  | _ => none

/-- MongoDB update_one with a $set payload: set each key of `u` in order
into the matched document. -/
def Doc.applySet (d : Doc) (u : Doc) : Doc :=
  u.foldl (fun acc kv => Doc.set acc kv.1 kv.2) d

/-- CampaignPlayer model of server.py: the embedded per-player record of
a Campaign (field names as in the source). -/
structure CampaignPlayer where
  odiserId : String
  odiserName : String
  odiserEmail : String
  characterId : String
  characterName : String
  joinedAt : String
deriving Repr, DecidableEq

/-- Campaign model of server.py. -/
structure Campaign where
  id : String
  name : String
  description : String
  masterId : String
  masterName : String
  masterEmail : String
  inviteCode : String
  players : List CampaignPlayer
  playerIds : List String
  createdAt : String
  updatedAt : String
deriving Repr, DecidableEq

/-- CampaignCharacter model of server.py: the campaign-private snapshot
of a Character, with the full copied character document in `data`. -/
structure CampaignCharacter where
  id : String
  campaignId : String
  originalCharacterId : String
  odiserId : String
  data : Doc
  createdAt : String
  updatedAt : String
deriving Repr, DecidableEq

/-- JoinCampaignRequest model of server.py. -/
structure JoinCampaignRequest where
  inviteCode : String
  odiserId : String
  odiserName : String
  odiserEmail : String
  characterId : String
deriving Repr, DecidableEq

/-- The JSON object returned by a successful join_campaign. -/
structure JoinResponse where
  success : Bool
  campaignId : String
  characterId : String
deriving Repr, DecidableEq

/-- An HTTPException raised by a handler: status code and detail. -/
inductive ApiError where
  | notFound (detail : String)
  | badRequest (detail : String)
  | forbidden (detail : String)
deriving Repr, DecidableEq

/-- One per-player summary produced by get_player_stats.  The name and
resource entries come from the dynamic `data` payload, so they are
`Value`s. -/
structure PlayerStat where
  odiserId : String
  characterId : String
  characterName : Value
  pv : Value
  pa : Value
  updatedAt : String
deriving Repr, DecidableEq

/-- The database state: the five collections the campaign workflow
touches.  `characters`, `threats` and `campaign_rolls` are schemaless
document lists; campaigns and campaign characters are structured. -/
structure DB where
  characters : List Doc
  campaigns : List Campaign
  campaign_characters : List CampaignCharacter
  threats : List Doc
  campaign_rolls : List Doc
deriving Repr, DecidableEq

/-- MongoDB update_one: apply `f` to the first element matching `p`
(documents keep their natural, i.e. insertion, order). -/
def updateFirst {α : Type} (p : α → Bool) (f : α → α) : List α → List α
  | [] => []
  | x :: xs => if p x then f x :: xs else x :: updateFirst p f xs

/-- MongoDB delete_one: remove the first element matching `p`. -/
def deleteFirst {α : Type} (p : α → Bool) : List α → List α
  | [] => []
  | x :: xs => if p x then xs else x :: deleteFirst p xs

/-- POST /api/campaigns handler (create_campaign).  `newId`,
`inviteCode` and `now` stand for the generated uuid, the code produced
by generate_invite_code, and the clock. -/
def create_campaign (db : DB)
    (name description masterId masterName masterEmail : String)
    (newId inviteCode now : String) : DB × Campaign :=
  let campaign : Campaign :=
    { id := newId, name := name, description := description,
      masterId := masterId, masterName := masterName,
      masterEmail := masterEmail, inviteCode := inviteCode,
      players := [], playerIds := [], createdAt := now, updatedAt := now }
  ({ db with campaigns := db.campaigns ++ [campaign] }, campaign)

/-- DELETE /api/campaigns/campaign_id handler (delete_campaign). -/
def delete_campaign (db : DB) (campaign_id masterId : String) :
    DB × Except ApiError String :=
  match db.campaigns.find? (fun c => c.id == campaign_id) with
  | none => (db, Except.error (ApiError.notFound "Campaign not found"))
  | some campaign =>
    if campaign.masterId ≠ masterId then
      (db, Except.error (ApiError.forbidden "Only the master can delete the campaign"))
    else
      ({ db with
          campaigns := deleteFirst (fun c => c.id == campaign_id) db.campaigns,
          campaign_characters :=
            db.campaign_characters.filter (fun cc => !(cc.campaignId == campaign_id)),
          threats :=
            db.threats.filter (fun t => !(Doc.getString t "campaignId" == some campaign_id)),
          campaign_rolls :=
            db.campaign_rolls.filter
              (fun r => !(Doc.getString r "campaignId" == some campaign_id)) },
       Except.ok "Campaign deleted successfully")

/-- The CampaignPlayer record built by join_campaign: it links the
joining user's id, name and email to the id of the freshly created
CampaignCharacter (`newId`).  A non-string `name` field of the copied
character would fail response validation in the source, so characterName
models original_char.get with the empty-string default on string names. -/
def newPlayerOf (input : JoinCampaignRequest) (newId now : String)
    (original_char : Doc) : CampaignPlayer :=
  { odiserId := input.odiserId, odiserName := input.odiserName,
    odiserEmail := input.odiserEmail, characterId := newId,
    characterName := (Doc.getString original_char "name").getD "",
    joinedAt := now }

/-- The $push / $set update join_campaign applies to the campaign
document: append the new player record, append the user id, refresh the
timestamp. -/
def joinCampaignUpdate (input : JoinCampaignRequest) (newId now : String)
    (original_char : Doc) (c : Campaign) : Campaign :=
  { c with
      players := c.players ++ [newPlayerOf input newId now original_char],
      playerIds := c.playerIds ++ [input.odiserId],
      updatedAt := now }

/-- POST /api/campaigns/join handler (join_campaign).  `newId` is the
uuid generated for the new CampaignCharacter; `now` the clock. -/
def join_campaign (db : DB) (input : JoinCampaignRequest) (newId now : String) :
    DB × Except ApiError JoinResponse :=
  match db.campaigns.find? (fun c => c.inviteCode == input.inviteCode) with
  | none => (db, Except.error (ApiError.notFound "Invalid invite code"))
  | some campaign =>
    if campaign.masterId = input.odiserId then
      (db, Except.error (ApiError.badRequest "You are the master of this campaign"))
    else if input.odiserId ∈ campaign.playerIds then
      (db, Except.error (ApiError.badRequest "You are already in this campaign"))
    else
      match db.characters.find?
          (fun d => Doc.getString d "id" == some input.characterId) with
      | none => (db, Except.error (ApiError.notFound "Character not found"))
      | some original_char =>
        let campaign_char : CampaignCharacter :=
          { id := newId, campaignId := campaign.id,
            originalCharacterId := input.characterId,
            odiserId := input.odiserId, data := original_char,
            createdAt := now, updatedAt := now }
        ({ db with
            campaign_characters := db.campaign_characters ++ [campaign_char],
            campaigns :=
              updateFirst (fun c => c.id == campaign.id)
                (joinCampaignUpdate input newId now original_char)
                db.campaigns },
         Except.ok { success := true, campaignId := campaign.id,
                     characterId := campaign_char.id })

/-- The $pull / $set update leave_campaign applies to the campaign
document: remove every playerIds entry equal to userId, remove every
player record whose odiserId equals userId, refresh the timestamp. -/
def leaveCampaignUpdate (userId now : String) (c : Campaign) : Campaign :=
  { c with
      playerIds := c.playerIds.filter (fun i => !(i == userId)),
      players := c.players.filter (fun p => !(p.odiserId == userId)),
      updatedAt := now }

/-- POST /api/campaigns/campaign_id/leave handler (leave_campaign). -/
def leave_campaign (db : DB) (campaign_id userId now : String) :
    DB × Except ApiError String :=
  match db.campaigns.find? (fun c => c.id == campaign_id) with
  | none => (db, Except.error (ApiError.notFound "Campaign not found"))
  | some campaign =>
    if userId = campaign.masterId then
      (db, Except.error (ApiError.badRequest "Master cannot leave the campaign"))
    else
      ({ db with
          campaigns :=
            updateFirst (fun c => c.id == campaign_id)
              (leaveCampaignUpdate userId now) db.campaigns,
          campaign_characters :=
            db.campaign_characters.filter
              (fun cc => !(cc.campaignId == campaign_id && cc.odiserId == userId)) },
       Except.ok "Left campaign successfully")

/-- PUT /api/characters/character_id handler (update_character): the
handler first sets updatedAt inside the payload, then $set-merges the
payload into the matched document, and re-fetches it for the response. -/
def update_character (db : DB) (character_id : String) (update_data : Doc)
    (now : String) : DB × Except ApiError (Option Doc) :=
  let update_data' := Doc.set update_data "updatedAt" (Value.str now)
  match db.characters.find?
      (fun d => Doc.getString d "id" == some character_id) with
  | none => (db, Except.error (ApiError.notFound "Character not found"))
  | some _ =>
    let characters' :=
      updateFirst (fun d => Doc.getString d "id" == some character_id)
        (fun d => Doc.applySet d update_data') db.characters
    ({ db with characters := characters' },
     Except.ok (characters'.find?
       (fun d => Doc.getString d "id" == some character_id)))

/-- PUT /api/campaigns/campaign_id/character/character_id handler
(update_campaign_character): sets updatedAt inside the payload, then
replaces the whole `data` field with the payload and refreshes the
document's updatedAt; the response re-fetch filters by id only. -/
def update_campaign_character (db : DB) (campaign_id character_id : String)
    (update_data : Doc) (now : String) :
    DB × Except ApiError (Option CampaignCharacter) :=
  let update_data' := Doc.set update_data "updatedAt" (Value.str now)
  match db.campaign_characters.find?
      (fun cc => cc.id == character_id && cc.campaignId == campaign_id) with
  | none => (db, Except.error (ApiError.notFound "Campaign character not found"))
  | some _ =>
    let chars' :=
      updateFirst (fun cc => cc.id == character_id && cc.campaignId == campaign_id)
        (fun cc => { cc with data := update_data', updatedAt := now })
        db.campaign_characters
    ({ db with campaign_characters := chars' },
     Except.ok (chars'.find? (fun cc => cc.id == character_id)))

/-- The default resource block used by get_player_stats when a resource
entry is missing. -/
def zeroResource : Value :=
  Value.obj [("current", Value.int 0), ("max", Value.int 0)]

/-- data.get of a resource block with nested default, as in
get_player_stats.  A non-object `resources` value would raise in the
source (an AttributeError on .get); no claim exercises that case, and it
is modelled as the missing-key default. -/
def statResource (data : Doc) (k : String) : Value :=
  match Doc.get data "resources" with
  | some (Value.obj r) => (Doc.get r k).getD zeroResource
  | _ => zeroResource

/-- GET /api/campaigns/campaign_id/player-stats handler
(get_player_stats): a pure projection over the campaign's
CampaignCharacters.  The source materialises the cursor with
to_list(100), so at most 100 documents are summarised. -/
def get_player_stats (db : DB) (campaign_id : String) : List PlayerStat :=
  ((db.campaign_characters.filter (fun cc => cc.campaignId == campaign_id)).take 100).map
    (fun cc =>
      { odiserId := cc.odiserId,
        characterId := cc.id,
        characterName := (Doc.get cc.data "name").getD (Value.str "Unknown"),
        pv := statResource cc.data "pv",
        pa := statResource cc.data "pa",
        updatedAt := cc.updatedAt })

/-- One membership-workflow operation, with the generated ids and
timestamps it consumes made explicit. -/
inductive MembershipOp where
  | create (name description masterId masterName masterEmail : String)
      (newId inviteCode now : String)
  | join (input : JoinCampaignRequest) (newId now : String)
  | leave (campaign_id userId now : String)
deriving Repr, DecidableEq

/-- State transition of one membership operation (a failed handler
leaves the state unchanged). -/
def applyOp (db : DB) : MembershipOp → DB
  | MembershipOp.create n d m mn me i code now =>
    (create_campaign db n d m mn me i code now).1
  | MembershipOp.join input newId now => (join_campaign db input newId now).1
  | MembershipOp.leave cid uid now => (leave_campaign db cid uid now).1

/-- Run a sequence of membership operations. -/
def runOps (db : DB) (ops : List MembershipOp) : DB :=
  ops.foldl applyOp db

/-- The playerIds list of every stored campaign is exactly the list of
odiserId values of its players list, in order. -/
abbrev playersSynced (db : DB) : Prop :=
  ∀ c ∈ db.campaigns, c.playerIds = c.players.map (fun p => p.odiserId)

/-! Generic lemmas about the list-level store operations. -/

theorem updateFirst_length {α : Type} (p : α → Bool) (f : α → α) (l : List α) :
    (updateFirst p f l).length = l.length := by
  induction l with
  | nil => rfl
  | cons x xs ih => cases h : p x <;> simp [updateFirst, h, ih]

theorem updateFirst_forall {α : Type} (p : α → Bool) (f : α → α) (P : α → Prop)
    (hf : ∀ x, P x → P (f x)) :
    ∀ l : List α, (∀ x ∈ l, P x) → ∀ x ∈ updateFirst p f l, P x := by
  intro l
  induction l with
  | nil => intro _ x hx; simp [updateFirst] at hx
  | cons a xs ih =>
    intro hl x hx
    cases h : p a with
    | true =>
      rw [updateFirst, if_pos h] at hx
      rcases List.mem_cons.mp hx with rfl | hx'
      · exact hf a (hl a (List.mem_cons_self a xs))
      · exact hl x (List.mem_cons_of_mem a hx')
    | false =>
      rw [updateFirst, if_neg (by simp [h])] at hx
      rcases List.mem_cons.mp hx with rfl | hx'
      · exact hl x (List.mem_cons_self x xs)
      · exact ih (fun y hy => hl y (List.mem_cons_of_mem a hy)) x hx'

theorem find?_updateFirst {α : Type} (p q : α → Bool) (f : α → α) (a : α)
    (hpres : ∀ x, q (f x) = q x) :
    ∀ l : List α, l.find? q = some a → l.find? p = some a →
      (updateFirst p f l).find? q = some (f a) := by
  intro l
  induction l with
  | nil => intro hq _; simp at hq
  | cons x xs ih =>
    intro hq hp
    cases hpx : p x with
    | true =>
      rw [List.find?_cons_of_pos xs hpx] at hp
      have hax : x = a := by injection hp
      cases hqx : q x with
      | true =>
        rw [updateFirst, if_pos hpx]
        rw [List.find?_cons_of_pos xs (by rw [hpres, hqx])]
        rw [hax]
      | false =>
        rw [List.find?_cons_of_neg xs (by simp [hqx])] at hq
        have := List.find?_some hq
        rw [← hax, hqx] at this
        exact absurd this (by simp)
    | false =>
      cases hqx : q x with
      | true =>
        rw [List.find?_cons_of_pos xs hqx] at hq
        have hax : x = a := by injection hq
        rw [List.find?_cons_of_neg xs (by simp [hpx])] at hp
        have := List.find?_some hp
        rw [← hax, hpx] at this
        exact absurd this (by simp)
      | false =>
        rw [List.find?_cons_of_neg xs (by simp [hqx])] at hq
        rw [List.find?_cons_of_neg xs (by simp [hpx])] at hp
        rw [updateFirst, if_neg (by simp [hpx])]
        rw [List.find?_cons_of_neg _ (by simp [hqx])]
        exact ih hq hp

theorem map_filter_comp {α β : Type} (f : α → β) (q : β → Bool) (l : List α) :
    (l.filter (fun x => q (f x))).map f = (l.map f).filter q := by
  induction l with
  | nil => rfl
  | cons x xs ih => cases h : q (f x) <;> simp [List.filter_cons, h, ih]

theorem filter_filter_not {α : Type} (p : α → Bool) (l : List α) :
    (l.filter (fun a => !(p a))).filter p = [] := by
  induction l with
  | nil => rfl
  | cons x xs ih => cases h : p x <;> simp [List.filter_cons, h, ih]

theorem filter_deleteFirst {α : Type} (p : α → Bool) (l : List α) :
    (deleteFirst p l).filter p = (l.filter p).tail := by
  induction l with
  | nil => rfl
  | cons x xs ih => cases h : p x <;> simp [deleteFirst, List.filter_cons, h, ih]

theorem find?_eq_filter_head? {α : Type} (p : α → Bool) (l : List α) :
    l.find? p = (l.filter p).head? := by
  induction l with
  | nil => rfl
  | cons x xs ih =>
    cases h : p x with
    | true =>
      rw [List.find?_cons_of_pos xs h, List.filter_cons, if_pos h, List.head?_cons]
    | false =>
      rw [List.find?_cons_of_neg xs (by simp [h]), List.filter_cons, if_neg (by simp [h]), ih]

/-! Claim theorems. -/

/-- C1: for every campaign found by a valid invite code and every
existing source Character, a successful join_campaign appends exactly one
new CampaignCharacter whose data equals the source Character document as
read at call time, appends exactly one CampaignPlayer linking the joining
user's id/name/email to the new CampaignCharacter id, appends the user's
id exactly once to playerIds, refreshes the campaign's updatedAt, and
returns the campaign id with the new CampaignCharacter id. -/
theorem joinCampaign_success_effects (db : DB) (input : JoinCampaignRequest)
    (newId now : String) (campaign : Campaign) (original_char : Doc)
    (hfind : db.campaigns.find? (fun c => c.inviteCode == input.inviteCode)
      = some campaign)
    (hid : db.campaigns.find? (fun c => c.id == campaign.id) = some campaign)
    (hmaster : campaign.masterId ≠ input.odiserId)
    (hmem : input.odiserId ∉ campaign.playerIds)
    (hchar : db.characters.find?
        (fun d => Doc.getString d "id" == some input.characterId)
      = some original_char) :
    (join_campaign db input newId now).2 =
      Except.ok { success := true, campaignId := campaign.id, characterId := newId } ∧
    (join_campaign db input newId now).1.campaign_characters =
      db.campaign_characters ++
        [{ id := newId, campaignId := campaign.id,
           originalCharacterId := input.characterId,
           odiserId := input.odiserId, data := original_char,
           createdAt := now, updatedAt := now }] ∧
    (join_campaign db input newId now).1.campaigns.find?
        (fun c => c.id == campaign.id) =
      some { campaign with
              players := campaign.players ++
                [{ odiserId := input.odiserId, odiserName := input.odiserName,
                   odiserEmail := input.odiserEmail, characterId := newId,
                   characterName := (Doc.getString original_char "name").getD "",
                   joinedAt := now }],
              playerIds := campaign.playerIds ++ [input.odiserId],
              updatedAt := now } ∧
    (join_campaign db input newId now).1.characters = db.characters := by
  have hjoin : join_campaign db input newId now =
      ({ db with
          campaign_characters := db.campaign_characters ++
            [{ id := newId, campaignId := campaign.id,
               originalCharacterId := input.characterId,
               odiserId := input.odiserId, data := original_char,
               createdAt := now, updatedAt := now }],
          campaigns :=
            updateFirst (fun c => c.id == campaign.id)
              (joinCampaignUpdate input newId now original_char)
              db.campaigns },
       Except.ok { success := true, campaignId := campaign.id,
                   characterId := newId }) := by
    simp only [join_campaign, hfind, hchar, if_neg hmaster, if_neg hmem]
  rw [hjoin]
  exact ⟨rfl, rfl,
    find?_updateFirst (fun c => c.id == campaign.id) (fun c => c.id == campaign.id)
      (joinCampaignUpdate input newId now original_char)
      campaign (fun x => rfl) db.campaigns hid hid, rfl⟩

/-- C1 witness at a concrete database. -/
def dbW : DB :=
  { characters := [[("id", Value.str "ch1"), ("name", Value.str "Gon"),
      ("resources", Value.obj [("pv", Value.obj [("current", Value.int 12),
        ("max", Value.int 15)])])]],
    campaigns :=
      [{ id := "c1", name := "Hunt", description := "",
         masterId := "m1", masterName := "Master", masterEmail := "m@x",
         inviteCode := "ABC123", players := [], playerIds := [],
         createdAt := "T0", updatedAt := "T0" }],
    campaign_characters := [], threats := [], campaign_rolls := [] }

/-- The campaign stored in dbW. -/
def campW : Campaign :=
  { id := "c1", name := "Hunt", description := "", masterId := "m1",
    masterName := "Master", masterEmail := "m@x", inviteCode := "ABC123",
    players := [], playerIds := [], createdAt := "T0", updatedAt := "T0" }

/-- The character stored in dbW. -/
def charW : Doc :=
  [("id", Value.str "ch1"), ("name", Value.str "Gon"),
   ("resources", Value.obj [("pv", Value.obj [("current", Value.int 12),
     ("max", Value.int 15)])])]

/-- A join request for dbW by user u1 with character ch1. -/
def inputW : JoinCampaignRequest :=
  { inviteCode := "ABC123", odiserId := "u1", odiserName := "Uli",
    odiserEmail := "u@x", characterId := "ch1" }

/-- C1 witness: the success theorem evaluated on dbW. -/
theorem joinCampaign_success_effects_witness :
    (join_campaign dbW inputW "new1" "T1").2 =
      Except.ok { success := true, campaignId := campW.id, characterId := "new1" } ∧
    (join_campaign dbW inputW "new1" "T1").1.campaign_characters =
      dbW.campaign_characters ++
        [{ id := "new1", campaignId := campW.id,
           originalCharacterId := inputW.characterId,
           odiserId := inputW.odiserId, data := charW,
           createdAt := "T1", updatedAt := "T1" }] ∧
    (join_campaign dbW inputW "new1" "T1").1.campaigns.find?
        (fun c => c.id == campW.id) =
      some { campW with
              players := campW.players ++
                [{ odiserId := inputW.odiserId, odiserName := inputW.odiserName,
                   odiserEmail := inputW.odiserEmail, characterId := "new1",
                   characterName := (Doc.getString charW "name").getD "",
                   joinedAt := "T1" }],
              playerIds := campW.playerIds ++ [inputW.odiserId],
              updatedAt := "T1" } ∧
    (join_campaign dbW inputW "new1" "T1").1.characters = dbW.characters :=
  joinCampaign_success_effects dbW inputW "new1" "T1" campW charW
    (by decide) (by decide) (by decide) (by decide) rfl

/-- C2: the snapshot is causally independent of its source —
update_character never touches the campaign_characters collection and
update_campaign_character never touches the characters collection, for
every id, campaign, and update payload. -/
theorem snapshot_independence (db : DB) (character_id campaign_id cc_id : String)
    (u : Doc) (now : String) :
    (update_character db character_id u now).1.campaign_characters =
      db.campaign_characters ∧
    (update_campaign_character db campaign_id cc_id u now).1.characters =
      db.characters := by
  constructor
  · unfold update_character
    cases db.characters.find?
        (fun d => Doc.getString d "id" == some character_id) <;> rfl
  · unfold update_campaign_character
    cases db.campaign_characters.find?
        (fun cc => cc.id == cc_id && cc.campaignId == campaign_id) <;> rfl

/-- One membership operation keeps playerIds in sync with players. -/
theorem applyOp_synced (db : DB) (op : MembershipOp) (h : playersSynced db) :
    playersSynced (applyOp db op) := by
  cases op with
  | create n d m mn me i code now =>
    intro c hc
    rcases List.mem_append.mp hc with h1 | h2
    · exact h c h1
    · rw [List.mem_singleton.mp h2]; rfl
  | join input newId now =>
    rcases hfind : db.campaigns.find? (fun c => c.inviteCode == input.inviteCode)
      with _ | camp
    · have heq : join_campaign db input newId now =
          (db, Except.error (ApiError.notFound "Invalid invite code")) := by
        simp only [join_campaign, hfind]
      show playersSynced (join_campaign db input newId now).1
      rw [heq]; exact h
    · by_cases h1 : camp.masterId = input.odiserId
      · have heq : join_campaign db input newId now =
            (db, Except.error (ApiError.badRequest "You are the master of this campaign")) := by
          simp only [join_campaign, hfind, if_pos h1]
        show playersSynced (join_campaign db input newId now).1
        rw [heq]; exact h
      · by_cases h2 : input.odiserId ∈ camp.playerIds
        · have heq : join_campaign db input newId now =
              (db, Except.error (ApiError.badRequest "You are already in this campaign")) := by
            simp only [join_campaign, hfind, if_neg h1, if_pos h2]
          show playersSynced (join_campaign db input newId now).1
          rw [heq]; exact h
        · rcases hchar : db.characters.find?
              (fun d => Doc.getString d "id" == some input.characterId)
            with _ | orig
          · have heq : join_campaign db input newId now =
                (db, Except.error (ApiError.notFound "Character not found")) := by
              simp only [join_campaign, hfind, if_neg h1, if_neg h2, hchar]
            show playersSynced (join_campaign db input newId now).1
            rw [heq]; exact h
          · have heq : (join_campaign db input newId now).1.campaigns =
                updateFirst (fun c => c.id == camp.id)
                  (joinCampaignUpdate input newId now orig)
                  db.campaigns := by
              simp only [join_campaign, hfind, if_neg h1, if_neg h2, hchar]
            intro c hc
            show c.playerIds = c.players.map (fun p => p.odiserId)
            have hc' : c ∈ (join_campaign db input newId now).1.campaigns := hc
            rw [heq] at hc'
            refine updateFirst_forall _ _
              (fun x => x.playerIds = x.players.map (fun p => p.odiserId)) ?_
              db.campaigns h c hc'
            intro x hx
            simp [joinCampaignUpdate, newPlayerOf, hx]
  | leave cid uid now =>
    rcases hfind : db.campaigns.find? (fun c => c.id == cid) with _ | camp
    · have heq : leave_campaign db cid uid now =
          (db, Except.error (ApiError.notFound "Campaign not found")) := by
        simp only [leave_campaign, hfind]
      show playersSynced (leave_campaign db cid uid now).1
      rw [heq]; exact h
    · by_cases h1 : uid = camp.masterId
      · have heq : leave_campaign db cid uid now =
            (db, Except.error (ApiError.badRequest "Master cannot leave the campaign")) := by
          simp only [leave_campaign, hfind, if_pos h1]
        show playersSynced (leave_campaign db cid uid now).1
        rw [heq]; exact h
      · have heq : (leave_campaign db cid uid now).1.campaigns =
            updateFirst (fun c => c.id == cid)
              (leaveCampaignUpdate uid now) db.campaigns := by
          simp only [leave_campaign, hfind, if_neg h1]
        intro c hc
        show c.playerIds = c.players.map (fun p => p.odiserId)
        have hc' : c ∈ (leave_campaign db cid uid now).1.campaigns := hc
        rw [heq] at hc'
        refine updateFirst_forall _ _
          (fun x => x.playerIds = x.players.map (fun p => p.odiserId)) ?_
          db.campaigns h c hc'
        intro x hx
        show x.playerIds.filter (fun i => !(i == uid)) =
          (x.players.filter (fun p => !(p.odiserId == uid))).map (fun p => p.odiserId)
        rw [hx, map_filter_comp (fun p : CampaignPlayer => p.odiserId)
          (fun s => !(s == uid)) x.players]

/-- C3: in every campaign state reachable from campaign creation through
any sequence of join and leave operations, playerIds equals the list of
odiserId values of the players list, element for element in order. -/
theorem playerIds_derived_index (db : DB) (ops : List MembershipOp)
    (h : playersSynced db) : playersSynced (runOps db ops) := by
  induction ops generalizing db with
  | nil => exact h
  | cons op rest ih => exact ih (applyOp db op) (applyOp_synced db op h)

/-- A sequence of membership operations for the C3 witness: a creation,
a successful join, and a successful leave. -/
def opsW : List MembershipOp :=
  [MembershipOp.create "Hunt2" "" "m2" "M2" "m2@x" "c2" "ZZZZZZ" "T3",
   MembershipOp.join inputW "n1" "T4",
   MembershipOp.leave "c1" "u1" "T5"]

/-- C3 witness: the invariant holds after running opsW from dbW. -/
theorem playerIds_derived_index_witness :
    playersSynced (runOps dbW opsW) :=
  playerIds_derived_index dbW opsW (by decide)

/-- C4: join_campaign checks its failure modes in order and surfaces the
first that applies, each time without writing any state — unknown invite
code gives NotFound, master self-join gives InvalidOperation (400), a
userId already in playerIds gives Conflict (400), a missing source
Character gives NotFound; and a second join with the same request right
after a successful first join fails at the membership check. -/
theorem joinCampaign_error_order :
    (∀ (db : DB) (input : JoinCampaignRequest) (newId now : String),
      db.campaigns.find? (fun c => c.inviteCode == input.inviteCode) = none →
      join_campaign db input newId now =
        (db, Except.error (ApiError.notFound "Invalid invite code"))) ∧
    (∀ (db : DB) (input : JoinCampaignRequest) (newId now : String)
        (campaign : Campaign),
      db.campaigns.find? (fun c => c.inviteCode == input.inviteCode) = some campaign →
      campaign.masterId = input.odiserId →
      join_campaign db input newId now =
        (db, Except.error (ApiError.badRequest "You are the master of this campaign"))) ∧
    (∀ (db : DB) (input : JoinCampaignRequest) (newId now : String)
        (campaign : Campaign),
      db.campaigns.find? (fun c => c.inviteCode == input.inviteCode) = some campaign →
      campaign.masterId ≠ input.odiserId →
      input.odiserId ∈ campaign.playerIds →
      join_campaign db input newId now =
        (db, Except.error (ApiError.badRequest "You are already in this campaign"))) ∧
    (∀ (db : DB) (input : JoinCampaignRequest) (newId now : String)
        (campaign : Campaign),
      db.campaigns.find? (fun c => c.inviteCode == input.inviteCode) = some campaign →
      campaign.masterId ≠ input.odiserId →
      input.odiserId ∉ campaign.playerIds →
      db.characters.find? (fun d => Doc.getString d "id" == some input.characterId)
        = none →
      join_campaign db input newId now =
        (db, Except.error (ApiError.notFound "Character not found"))) ∧
    (∀ (db : DB) (input : JoinCampaignRequest) (newId now newId2 now2 : String)
        (campaign : Campaign) (original_char : Doc),
      db.campaigns.find? (fun c => c.inviteCode == input.inviteCode) = some campaign →
      db.campaigns.find? (fun c => c.id == campaign.id) = some campaign →
      campaign.masterId ≠ input.odiserId →
      input.odiserId ∉ campaign.playerIds →
      db.characters.find? (fun d => Doc.getString d "id" == some input.characterId)
        = some original_char →
      (join_campaign (join_campaign db input newId now).1 input newId2 now2).2 =
        Except.error (ApiError.badRequest "You are already in this campaign")) := by
  refine ⟨?_, ?_, ?_, ?_, ?_⟩
  · intro db input newId now hfind
    simp only [join_campaign, hfind]
  · intro db input newId now campaign hfind h1
    simp only [join_campaign, hfind, if_pos h1]
  · intro db input newId now campaign hfind h1 h2
    simp only [join_campaign, hfind, if_neg h1, if_pos h2]
  · intro db input newId now campaign hfind h1 h2 hchar
    simp only [join_campaign, hfind, if_neg h1, if_neg h2, hchar]
  · intro db input newId now newId2 now2 campaign original_char hfind hid h1 h2 hchar
    have hdb1 : (join_campaign db input newId now).1.campaigns =
        updateFirst (fun c => c.id == campaign.id)
          (joinCampaignUpdate input newId now original_char) db.campaigns := by
      simp only [join_campaign, hfind, if_neg h1, if_neg h2, hchar]
    have hfind2 : (join_campaign db input newId now).1.campaigns.find?
        (fun c => c.inviteCode == input.inviteCode) =
        some (joinCampaignUpdate input newId now original_char campaign) := by
      rw [hdb1]
      exact find?_updateFirst (fun c => c.id == campaign.id)
        (fun c => c.inviteCode == input.inviteCode)
        (joinCampaignUpdate input newId now original_char)
        campaign (fun x => rfl) db.campaigns hfind hid
    have hm2 : (joinCampaignUpdate input newId now original_char campaign).masterId
        ≠ input.odiserId := h1
    have hmem2 : input.odiserId ∈
        (joinCampaignUpdate input newId now original_char campaign).playerIds := by
      show input.odiserId ∈ campaign.playerIds ++ [input.odiserId]
      exact List.mem_append_right _ (List.mem_singleton_self _)
    obtain ⟨db1, hg⟩ : ∃ x, (join_campaign db input newId now).1 = x := ⟨_, rfl⟩
    rw [hg] at hfind2
    rw [hg]
    simp only [join_campaign, hfind2, if_neg hm2, if_pos hmem2]

/-- A campaign whose playerIds already contains u1, for the Conflict
branch of the C4 witness. -/
def campM : Campaign :=
  { id := "c9", name := "Full", description := "", masterId := "m9",
    masterName := "M9", masterEmail := "m9@x", inviteCode := "QQQ111",
    players :=
      [{ odiserId := "u1", odiserName := "Uli", odiserEmail := "u@x",
         characterId := "cc9", characterName := "Gon", joinedAt := "T0" }],
    playerIds := ["u1"], createdAt := "T0", updatedAt := "T0" }

/-- A database holding campM and no characters, for the C4 witness. -/
def dbM : DB :=
  { characters := [], campaigns := [campM], campaign_characters := [],
    threats := [], campaign_rolls := [] }

/-- A join request for campM by the already joined user u1. -/
def inputM : JoinCampaignRequest :=
  { inviteCode := "QQQ111", odiserId := "u1", odiserName := "Uli",
    odiserEmail := "u@x", characterId := "ch1" }

/-- A join request for campM by its master m9. -/
def inputMaster : JoinCampaignRequest :=
  { inviteCode := "QQQ111", odiserId := "m9", odiserName := "M9",
    odiserEmail := "m9@x", characterId := "ch1" }

/-- A join request for dbW naming a character that does not exist. -/
def inputNoChar : JoinCampaignRequest :=
  { inviteCode := "ABC123", odiserId := "u7", odiserName := "U7",
    odiserEmail := "u7@x", characterId := "ghost" }

/-- C4 witness: each failure mode evaluated on a concrete database, and
the double join on dbW. -/
theorem joinCampaign_error_order_witness :
    join_campaign dbM { inputM with inviteCode := "NOPE99" } "n1" "T1" =
      (dbM, Except.error (ApiError.notFound "Invalid invite code")) ∧
    join_campaign dbM inputMaster "n1" "T1" =
      (dbM, Except.error (ApiError.badRequest "You are the master of this campaign")) ∧
    join_campaign dbM inputM "n1" "T1" =
      (dbM, Except.error (ApiError.badRequest "You are already in this campaign")) ∧
    join_campaign dbW inputNoChar "n1" "T1" =
      (dbW, Except.error (ApiError.notFound "Character not found")) ∧
    (join_campaign (join_campaign dbW inputW "n1" "T1").1 inputW "n2" "T2").2 =
      Except.error (ApiError.badRequest "You are already in this campaign") :=
  ⟨joinCampaign_error_order.1 dbM { inputM with inviteCode := "NOPE99" } "n1" "T1"
      (by decide),
   joinCampaign_error_order.2.1 dbM inputMaster "n1" "T1" campM (by decide) (by decide),
   joinCampaign_error_order.2.2.1 dbM inputM "n1" "T1" campM
      (by decide) (by decide) (by decide),
   joinCampaign_error_order.2.2.2.1 dbW inputNoChar "n1" "T1" campW
      (by decide) (by decide) (by decide) (by decide),
   joinCampaign_error_order.2.2.2.2 dbW inputW "n1" "T1" "n2" "T2" campW charW
      (by decide) (by decide) (by decide) (by decide) rfl⟩

/-- A CampaignCharacter stored in campaign camp1, for the C5 theorems. -/
def ccC5 : CampaignCharacter :=
  { id := "cc1", campaignId := "camp1", originalCharacterId := "orig1",
    odiserId := "u1", data := [("name", Value.str "Old")],
    createdAt := "T0", updatedAt := "T0" }

/-- A database holding only ccC5. -/
def dbC5 : DB :=
  { characters := [], campaigns := [], campaign_characters := [ccC5],
    threats := [], campaign_rolls := [] }

/-- The update payload used in the C5 theorems. -/
def uC5 : Doc := [("name", Value.str "New")]

/-- C5 counterexample: after update_campaign_character, the stored data
payload is not exactly the supplied newFields map — the handler first
injects an updatedAt key into the payload, so the stored data carries
one extra binding. -/
theorem updateCampaignCharacter_not_exact_cex :
    ((update_campaign_character dbC5 "camp1" "cc1" uC5 "T1").1.campaign_characters.map
      (fun cc => cc.data)) ≠ [uC5] := fun h => by
  have h2 := congrArg (fun l => l.map List.length) h
  exact absurd h2 (by decide)

/-- C5 amended: for every CampaignCharacter matching (id, campaignId),
update_campaign_character wholesale-replaces the stored data with the
supplied newFields map with its updatedAt key set to the call-time
timestamp (inserted if absent), refreshes the document's updatedAt,
touches no other collection and deletes or adds nothing; if no
CampaignCharacter matches both id and campaignId it fails with NotFound
and writes nothing. -/
theorem updateCampaignCharacter_replaces_data :
    (∀ (db : DB) (campaign_id character_id : String) (u : Doc) (now : String)
        (cc : CampaignCharacter),
      db.campaign_characters.find?
          (fun c => c.id == character_id && c.campaignId == campaign_id) = some cc →
      (update_campaign_character db campaign_id character_id u now).1.campaign_characters.find?
          (fun c => c.id == character_id && c.campaignId == campaign_id) =
        some { cc with data := Doc.set u "updatedAt" (Value.str now),
                       updatedAt := now } ∧
      (update_campaign_character db campaign_id character_id u now).1.campaign_characters.length =
        db.campaign_characters.length ∧
      (update_campaign_character db campaign_id character_id u now).1.characters =
        db.characters ∧
      (update_campaign_character db campaign_id character_id u now).1.campaigns =
        db.campaigns ∧
      (∃ r, (update_campaign_character db campaign_id character_id u now).2 =
        Except.ok r)) ∧
    (∀ (db : DB) (campaign_id character_id : String) (u : Doc) (now : String),
      db.campaign_characters.find?
          (fun c => c.id == character_id && c.campaignId == campaign_id) = none →
      update_campaign_character db campaign_id character_id u now =
        (db, Except.error (ApiError.notFound "Campaign character not found"))) := by
  constructor
  · intro db campaign_id character_id u now cc hfind
    refine ⟨?_, ?_, ?_, ?_, ?_⟩
    · simp only [update_campaign_character, hfind]
      exact find?_updateFirst
        (fun c => c.id == character_id && c.campaignId == campaign_id)
        (fun c => c.id == character_id && c.campaignId == campaign_id)
        (fun c => { c with data := Doc.set u "updatedAt" (Value.str now),
                           updatedAt := now })
        cc (fun x => rfl) db.campaign_characters hfind hfind
    · simp only [update_campaign_character, hfind]
      exact updateFirst_length _ _ db.campaign_characters
    · simp only [update_campaign_character, hfind]
    · simp only [update_campaign_character, hfind]
    · refine ⟨?_, ?_⟩
      · exact ((updateFirst
          (fun c => c.id == character_id && c.campaignId == campaign_id)
          (fun c => { c with data := Doc.set u "updatedAt" (Value.str now),
                             updatedAt := now })
          db.campaign_characters).find? (fun c => c.id == character_id))
      · simp only [update_campaign_character, hfind]
  · intro db campaign_id character_id u now hfind
    simp only [update_campaign_character, hfind]

/-- C5 witness: the amended theorem evaluated on dbC5, plus the NotFound
branch on a campaign id that matches nothing. -/
theorem updateCampaignCharacter_replaces_data_witness :
    ((update_campaign_character dbC5 "camp1" "cc1" uC5 "T1").1.campaign_characters.find?
        (fun c => c.id == "cc1" && c.campaignId == "camp1") =
      some { ccC5 with data := Doc.set uC5 "updatedAt" (Value.str "T1"),
                       updatedAt := "T1" } ∧
      (update_campaign_character dbC5 "camp1" "cc1" uC5 "T1").1.campaign_characters.length =
        dbC5.campaign_characters.length ∧
      (update_campaign_character dbC5 "camp1" "cc1" uC5 "T1").1.characters =
        dbC5.characters ∧
      (update_campaign_character dbC5 "camp1" "cc1" uC5 "T1").1.campaigns =
        dbC5.campaigns ∧
      (∃ r, (update_campaign_character dbC5 "camp1" "cc1" uC5 "T1").2 =
        Except.ok r)) ∧
    update_campaign_character dbC5 "ghost" "cc1" uC5 "T1" =
      (dbC5, Except.error (ApiError.notFound "Campaign character not found")) :=
  ⟨updateCampaignCharacter_replaces_data.1 dbC5 "camp1" "cc1" uC5 "T1" ccC5 rfl,
   updateCampaignCharacter_replaces_data.2 dbC5 "ghost" "cc1" uC5 "T1" rfl⟩

/-- A CampaignCharacter of campaign camp, replicated 101 times for the
C6 counterexample. -/
def ccC6 : CampaignCharacter :=
  { id := "cc", campaignId := "camp", originalCharacterId := "o",
    odiserId := "u", data := [], createdAt := "T", updatedAt := "T" }

/-- A database with 101 CampaignCharacters in one campaign. -/
def dbC6 : DB :=
  { characters := [], campaigns := [],
    campaign_characters := List.replicate 101 ccC6,
    threats := [], campaign_rolls := [] }

/-- C6 counterexample: with 101 CampaignCharacters in the campaign,
get_player_stats returns 100 summaries, not one per CampaignCharacter —
the handler materialises the cursor with to_list(100). -/
theorem getPlayerStats_cap_cex :
    (get_player_stats dbC6 "camp").length ≠
      (dbC6.campaign_characters.filter
        (fun cc => cc.campaignId == "camp")).length := by decide

/-- C6 amended: get_player_stats returns one summary per
CampaignCharacter among the first 100 scoped to the campaign (so exactly
min(N, 100) summaries for N CampaignCharacters), each carrying the user
id, CampaignCharacter id, name, pv, pa and updatedAt of a scoped
CampaignCharacter, with a missing name defaulting to the sentinel
Unknown and a missing resource block to the zero resource; the function
reads the database and mutates nothing. -/
theorem get_player_stats_spec (db : DB) (campaign_id : String) :
    (get_player_stats db campaign_id).length =
      min 100 (db.campaign_characters.filter
        (fun cc => cc.campaignId == campaign_id)).length ∧
    ∀ s ∈ get_player_stats db campaign_id,
      ∃ cc ∈ db.campaign_characters.filter
          (fun cc => cc.campaignId == campaign_id),
        s.odiserId = cc.odiserId ∧ s.characterId = cc.id ∧
        s.updatedAt = cc.updatedAt ∧
        s.characterName = (Doc.get cc.data "name").getD (Value.str "Unknown") ∧
        s.pv = statResource cc.data "pv" ∧ s.pa = statResource cc.data "pa" ∧
        (Doc.get cc.data "name" = none → s.characterName = Value.str "Unknown") ∧
        (Doc.get cc.data "resources" = none →
          s.pv = zeroResource ∧ s.pa = zeroResource) := by
  constructor
  · simp [get_player_stats, List.length_take]
  · intro s hs
    obtain ⟨cc, hcc, rfl⟩ := List.mem_map.mp hs
    refine ⟨cc, List.mem_of_mem_take hcc, rfl, rfl, rfl, rfl, rfl, rfl, ?_, ?_⟩
    · intro hname
      show (Doc.get cc.data "name").getD (Value.str "Unknown") = Value.str "Unknown"
      rw [hname]
      rfl
    · intro hres
      constructor
      · show statResource cc.data "pv" = zeroResource
        rw [statResource, hres]
      · show statResource cc.data "pa" = zeroResource
        rw [statResource, hres]

/-- A CampaignCharacter with an empty data payload, to exercise the C6
defaults in the witness. -/
def ccW6 : CampaignCharacter :=
  { id := "cc6", campaignId := "camp6", originalCharacterId := "o6",
    odiserId := "u6", data := [], createdAt := "T", updatedAt := "T" }

/-- A database holding only ccW6. -/
def dbW6 : DB :=
  { characters := [], campaigns := [], campaign_characters := [ccW6],
    threats := [], campaign_rolls := [] }

/-- The summary get_player_stats produces for ccW6. -/
def statW6 : PlayerStat :=
  { odiserId := "u6", characterId := "cc6",
    characterName := Value.str "Unknown", pv := zeroResource,
    pa := zeroResource, updatedAt := "T" }

/-- C6 witness: the amended theorem evaluated on dbW6. -/
theorem get_player_stats_spec_witness :
    (get_player_stats dbW6 "camp6").length =
      min 100 (dbW6.campaign_characters.filter
        (fun cc => cc.campaignId == "camp6")).length ∧
    (∃ cc ∈ dbW6.campaign_characters.filter
        (fun cc => cc.campaignId == "camp6"),
      statW6.odiserId = cc.odiserId ∧ statW6.characterId = cc.id ∧
      statW6.updatedAt = cc.updatedAt ∧
      statW6.characterName = (Doc.get cc.data "name").getD (Value.str "Unknown") ∧
      statW6.pv = statResource cc.data "pv" ∧
      statW6.pa = statResource cc.data "pa" ∧
      (Doc.get cc.data "name" = none → statW6.characterName = Value.str "Unknown") ∧
      (Doc.get cc.data "resources" = none →
        statW6.pv = zeroResource ∧ statW6.pa = zeroResource)) :=
  ⟨(get_player_stats_spec dbW6 "camp6").1,
   (get_player_stats_spec dbW6 "camp6").2 statW6 (List.mem_singleton.mpr rfl)⟩

/-- C7: delete_campaign invoked by the stored master deletes the
Campaign document and every CampaignCharacter, Threat and CampaignRoll
document whose campaignId matches, so that afterwards zero matching
documents remain in each of the four collections; the three cascade
deletions are unconditional filters, so each is applied even when it
matches no documents; the characters collection is untouched. -/
theorem deleteCampaign_master_cascade (db : DB) (campaign_id masterId : String)
    (campaign : Campaign)
    (hfilter : db.campaigns.filter (fun c => c.id == campaign_id) = [campaign])
    (hmaster : campaign.masterId = masterId) :
    (delete_campaign db campaign_id masterId).2 =
      Except.ok "Campaign deleted successfully" ∧
    (delete_campaign db campaign_id masterId).1.campaigns.filter
        (fun c => c.id == campaign_id) = [] ∧
    (delete_campaign db campaign_id masterId).1.campaign_characters.filter
        (fun cc => cc.campaignId == campaign_id) = [] ∧
    (delete_campaign db campaign_id masterId).1.threats.filter
        (fun t => Doc.getString t "campaignId" == some campaign_id) = [] ∧
    (delete_campaign db campaign_id masterId).1.campaign_rolls.filter
        (fun r => Doc.getString r "campaignId" == some campaign_id) = [] ∧
    (delete_campaign db campaign_id masterId).1.characters = db.characters := by
  have hfind : db.campaigns.find? (fun c => c.id == campaign_id) = some campaign := by
    rw [find?_eq_filter_head?, hfilter]; rfl
  have hdel : delete_campaign db campaign_id masterId =
      ({ db with
          campaigns := deleteFirst (fun c => c.id == campaign_id) db.campaigns,
          campaign_characters :=
            db.campaign_characters.filter
              (fun cc => !(cc.campaignId == campaign_id)),
          threats :=
            db.threats.filter
              (fun t => !(Doc.getString t "campaignId" == some campaign_id)),
          campaign_rolls :=
            db.campaign_rolls.filter
              (fun r => !(Doc.getString r "campaignId" == some campaign_id)) },
       Except.ok "Campaign deleted successfully") := by
    simp only [delete_campaign, hfind,
      if_neg (show ¬(campaign.masterId ≠ masterId) from fun hne => hne hmaster)]
  rw [hdel]
  refine ⟨rfl, ?_, ?_, ?_, ?_, rfl⟩
  · show (deleteFirst (fun c => c.id == campaign_id) db.campaigns).filter
        (fun c => c.id == campaign_id) = []
    rw [filter_deleteFirst, hfilter]
    rfl
  · exact filter_filter_not _ db.campaign_characters
  · exact filter_filter_not _ db.threats
  · exact filter_filter_not _ db.campaign_rolls

/-- The campaign used by the C7 and C8 witnesses. -/
def campD : Campaign :=
  { id := "cd", name := "Doomed", description := "", masterId := "md",
    masterName := "MD", masterEmail := "md@x", inviteCode := "DDDDDD",
    players := [], playerIds := [], createdAt := "T0", updatedAt := "T0" }

/-- A database where campaign cd has one campaign character, one threat
and one roll, plus an unrelated character document. -/
def dbD : DB :=
  { characters := [[("id", Value.str "chx"), ("name", Value.str "Killua")]],
    campaigns := [campD],
    campaign_characters :=
      [{ id := "ccd", campaignId := "cd", originalCharacterId := "chx",
         odiserId := "ux", data := [], createdAt := "T0", updatedAt := "T0" }],
    threats := [[("id", Value.str "t1"), ("campaignId", Value.str "cd")]],
    campaign_rolls := [[("id", Value.str "r1"), ("campaignId", Value.str "cd")]] }

/-- C7 witness: the cascade theorem evaluated on dbD with the master. -/
theorem deleteCampaign_master_cascade_witness :
    (delete_campaign dbD "cd" "md").2 =
      Except.ok "Campaign deleted successfully" ∧
    (delete_campaign dbD "cd" "md").1.campaigns.filter
        (fun c => c.id == "cd") = [] ∧
    (delete_campaign dbD "cd" "md").1.campaign_characters.filter
        (fun cc => cc.campaignId == "cd") = [] ∧
    (delete_campaign dbD "cd" "md").1.threats.filter
        (fun t => Doc.getString t "campaignId" == some "cd") = [] ∧
    (delete_campaign dbD "cd" "md").1.campaign_rolls.filter
        (fun r => Doc.getString r "campaignId" == some "cd") = [] ∧
    (delete_campaign dbD "cd" "md").1.characters = dbD.characters :=
  deleteCampaign_master_cascade dbD "cd" "md" campD rfl rfl

/-- C8: delete_campaign invoked by any requester other than the stored
master fails with Forbidden and leaves every collection unchanged. -/
theorem deleteCampaign_nonmaster_forbidden (db : DB)
    (campaign_id masterId : String) (campaign : Campaign)
    (hfind : db.campaigns.find? (fun c => c.id == campaign_id) = some campaign)
    (hne : campaign.masterId ≠ masterId) :
    delete_campaign db campaign_id masterId =
      (db, Except.error (ApiError.forbidden "Only the master can delete the campaign")) := by
  simp only [delete_campaign, hfind, if_pos hne]

/-- C8 witness: a non-master delete on dbD fails and changes nothing. -/
theorem deleteCampaign_nonmaster_forbidden_witness :
    delete_campaign dbD "cd" "intruder" =
      (dbD, Except.error (ApiError.forbidden "Only the master can delete the campaign")) :=
  deleteCampaign_nonmaster_forbidden dbD "cd" "intruder" campD rfl (by decide)

/-- C9: leave_campaign on a campaign id that does not exist fails with
NotFound, and leave_campaign invoked with the master's own id fails with
InvalidOperation, both with the database unchanged. -/
theorem leaveCampaign_guards :
    (∀ (db : DB) (campaign_id userId now : String),
      db.campaigns.find? (fun c => c.id == campaign_id) = none →
      leave_campaign db campaign_id userId now =
        (db, Except.error (ApiError.notFound "Campaign not found"))) ∧
    (∀ (db : DB) (campaign_id userId now : String) (campaign : Campaign),
      db.campaigns.find? (fun c => c.id == campaign_id) = some campaign →
      userId = campaign.masterId →
      leave_campaign db campaign_id userId now =
        (db, Except.error (ApiError.badRequest "Master cannot leave the campaign"))) := by
  constructor
  · intro db campaign_id userId now hfind
    simp only [leave_campaign, hfind]
  · intro db campaign_id userId now campaign hfind h1
    simp only [leave_campaign, hfind, if_pos h1]

/-- C9 witness: both guards evaluated on dbM. -/
theorem leaveCampaign_guards_witness :
    leave_campaign dbM "ghost" "u1" "T2" =
      (dbM, Except.error (ApiError.notFound "Campaign not found")) ∧
    leave_campaign dbM "c9" "m9" "T2" =
      (dbM, Except.error (ApiError.badRequest "Master cannot leave the campaign")) :=
  ⟨leaveCampaign_guards.1 dbM "ghost" "u1" "T2" (by decide),
   leaveCampaign_guards.2 dbM "c9" "m9" "T2" campM (by decide) (by decide)⟩

/-- C10: leave_campaign by a user who is neither the master nor present
in the campaign's membership (no playerIds entry, no player record, no
CampaignCharacter) succeeds with the success message, leaves players,
playerIds and the campaign characters unchanged, and still refreshes the
campaign's updatedAt — a silent no-op rather than a NotFound. -/
theorem leaveCampaign_nonmember_noop (db : DB) (campaign_id userId now : String)
    (campaign : Campaign)
    (hfind : db.campaigns.find? (fun c => c.id == campaign_id) = some campaign)
    (hmaster : userId ≠ campaign.masterId)
    (hnotid : userId ∉ campaign.playerIds)
    (hnoplayer : ∀ p ∈ campaign.players, p.odiserId ≠ userId)
    (hnochar : ∀ cc ∈ db.campaign_characters,
      ¬(cc.campaignId = campaign_id ∧ cc.odiserId = userId)) :
    (leave_campaign db campaign_id userId now).2 =
      Except.ok "Left campaign successfully" ∧
    (leave_campaign db campaign_id userId now).1.campaign_characters =
      db.campaign_characters ∧
    (leave_campaign db campaign_id userId now).1.campaigns.find?
        (fun c => c.id == campaign_id) = some { campaign with updatedAt := now } ∧
    (leave_campaign db campaign_id userId now).1.characters = db.characters := by
  have hleave : leave_campaign db campaign_id userId now =
      ({ db with
          campaigns :=
            updateFirst (fun c => c.id == campaign_id)
              (leaveCampaignUpdate userId now) db.campaigns,
          campaign_characters :=
            db.campaign_characters.filter
              (fun cc => !(cc.campaignId == campaign_id && cc.odiserId == userId)) },
       Except.ok "Left campaign successfully") := by
    simp only [leave_campaign, hfind, if_neg hmaster]
  rw [hleave]
  refine ⟨rfl, ?_, ?_, rfl⟩
  · show db.campaign_characters.filter
        (fun cc => !(cc.campaignId == campaign_id && cc.odiserId == userId)) =
      db.campaign_characters
    refine List.filter_eq_self.mpr ?_
    intro cc hcc
    have := hnochar cc hcc
    simp only [Bool.not_eq_true', beq_iff_eq, Bool.and_eq_false_iff]
    by_cases h1 : cc.campaignId = campaign_id
    · right
      simp only [beq_eq_false_iff_ne, ne_eq]
      exact fun h2 => this ⟨h1, h2⟩
    · left
      simp only [beq_eq_false_iff_ne, ne_eq]
      exact h1
  · have hfu := find?_updateFirst (fun c => c.id == campaign_id)
      (fun c => c.id == campaign_id) (leaveCampaignUpdate userId now)
      campaign (fun x => rfl) db.campaigns hfind hfind
    rw [hfu]
    have h1 : campaign.playerIds.filter (fun i => !(i == userId)) =
        campaign.playerIds := by
      refine List.filter_eq_self.mpr ?_
      intro a ha
      simp only [Bool.not_eq_true', beq_eq_false_iff_ne, ne_eq]
      exact fun he => hnotid (he ▸ ha)
    have h2 : campaign.players.filter (fun p => !(p.odiserId == userId)) =
        campaign.players := by
      refine List.filter_eq_self.mpr ?_
      intro p hp
      simp only [Bool.not_eq_true', beq_eq_false_iff_ne, ne_eq]
      exact hnoplayer p hp
    show some (leaveCampaignUpdate userId now campaign) = _
    rw [show leaveCampaignUpdate userId now campaign =
      { campaign with updatedAt := now } from by
        rw [leaveCampaignUpdate, h1, h2]]

/-- C10 witness: a stranger leaves campM — nothing changes except the
timestamp, and the call succeeds. -/
theorem leaveCampaign_nonmember_noop_witness :
    (leave_campaign dbM "c9" "stranger" "T7").2 =
      Except.ok "Left campaign successfully" ∧
    (leave_campaign dbM "c9" "stranger" "T7").1.campaign_characters =
      dbM.campaign_characters ∧
    (leave_campaign dbM "c9" "stranger" "T7").1.campaigns.find?
        (fun c => c.id == "c9") = some { campM with updatedAt := "T7" } ∧
    (leave_campaign dbM "c9" "stranger" "T7").1.characters = dbM.characters :=
  leaveCampaign_nonmember_noop dbM "c9" "stranger" "T7" campM
    (by decide) (by decide) (by decide) (by decide) (by decide)
